import Mathlib

/-
Shallow embedding of the camera-viewer application (src/App.tsx).

The application is a React component; its behaviour is a set of event
handlers and effects over component state.  We embed:

  * the fixed RESOLUTIONS table and the resolution-change handler
    (App.tsx lines 5-10 and 239-242), with a model of JavaScript
    parseInt(_, 10);
  * the initial permission probe and device enumeration
    (getInitialPermissionAndDevices, App.tsx lines 146-183), as a pure
    function of the probe outcome;
  * the capture-session lifecycle effect (App.tsx lines 185-221) as an
    explicit state machine: React runs the previous effect cleanup and
    then the effect body whenever the selected device or resolution
    changes; asynchronous getUserMedia results are modelled as pending
    requests that resolve (successfully or not) at arbitrary later
    points, exactly re-playing the code of the effect body and of the
    getStream continuation;
  * the fullscreen controller (toggleFullscreen, App.tsx lines 244-256,
    and the fullscreenchange listener handleFullscreenChange, lines
    223-233).
-/

/-- A resolution option: (label, width, height), App.tsx lines 5-10. -/
structure Resolution where
  label : String
  width : Nat
  height : Nat
deriving DecidableEq

def res480 : Resolution := ⟨"480p (640x480)", 640, 480⟩

def res720 : Resolution := ⟨"720p (1280x720)", 1280, 720⟩

def res1080 : Resolution := ⟨"1080p (1920x1080)", 1920, 1080⟩

def res4k : Resolution := ⟨"4K (3840x2160)", 3840, 2160⟩

/-- The fixed resolution table, App.tsx lines 5-10. -/
def RESOLUTIONS : List Resolution := [res480, res720, res1080, res4k]

/-! ### Error messages (string literals of App.tsx) -/

def noDeviceFoundMsg : String := "No camera devices found."

def accessDeniedMsg : String :=
  "Camera access was denied. Please grant permission in your browser settings and refresh the page."

def genericAccessMsg : String :=
  "Could not access camera devices. Please ensure you have a camera connected and permissions are allowed."

def unknownErrorMsg : String := "An unknown error occurred while accessing media devices."

def unsupportedMsg : String := "Your browser does not support camera access."

def streamStartFailedMsg : String :=
  "Error starting video stream. Please try another device or check permissions."

/-! ### JavaScript parseInt(value, 10) and the resolution-change handler -/

/-- Value of a list of decimal digit characters. -/
def decimalValue (ds : List Char) : Nat :=
  ds.foldl (fun a c => a * 10 + (c.toNat - 48)) 0

/-- The longest leading run of decimal digits, interpreted as a number;
`none` when there is no leading digit (parseInt returns NaN). -/
def leadingDecimal (cs : List Char) : Option Nat :=
  let ds := cs.takeWhile Char.isDigit
  if ds.isEmpty then none else some (decimalValue ds)

/-- Model of JavaScript `parseInt(value, 10)`: skip leading whitespace,
accept an optional sign, then read the longest digit run; `none` models
NaN. -/
def parseIntJS (value : String) : Option Int :=
  let cs := value.data.dropWhile Char.isWhitespace
  match cs with
  | '-' :: rest => (leadingDecimal rest).map (fun n => -(n : Int))
  | '+' :: rest => (leadingDecimal rest).map (fun n => (n : Int))
  | _ => (leadingDecimal cs).map (fun n => (n : Int))

/-- `handleResolutionChange` (App.tsx lines 239-242):
`const resolutionIndex = parseInt(event.target.value, 10);
setSelectedResolution(RESOLUTIONS[resolutionIndex]);`
JavaScript indexing with a NaN, negative or out-of-range index yields
`undefined`, modelled by `none`; there is no bounds check. -/
def handleResolutionChange (value : String) : Option Resolution :=
  match parseIntJS value with
  | none => none
  | some i => if i < 0 then none else RESOLUTIONS.get? i.toNat

/-! ### Device catalog: initial permission probe and enumeration -/

/-- A device descriptor as reported by enumerateDevices. -/
structure Device where
  deviceId : String
  label : String
  kind : String
deriving DecidableEq

def isVideoInput (d : Device) : Bool := d.kind == "videoinput"

/-- The component state written by `getInitialPermissionAndDevices`. -/
structure InitState where
  devices : List Device
  selectedDeviceId : String
  error : Option String
deriving DecidableEq

/-- Initial component state: `devices = []`, `selectedDeviceId = ''`,
`error = null` (App.tsx lines 136-139). -/
def initState0 : InitState := ⟨[], "", none⟩

/-- Outcome of the platform capability probe at startup:
either the platform lacks mediaDevices/getUserMedia, or the probe
acquisition threw (with the name of the thrown Error, or `none` for a
non-Error value), or it succeeded and enumeration returned a device
list. -/
inductive ProbeOutcome where
  | unsupported
  | failed (errName : Option String)
  | granted (allDevices : List Device)
deriving DecidableEq

/-- `getInitialPermissionAndDevices` (App.tsx lines 146-183) as a pure
function of the probe outcome.  On success the enumeration is filtered
to video inputs; a non-empty result selects the first device and clears
the error, an empty result reports "No camera devices found.".  On a
thrown Error named NotAllowedError or PermissionDeniedError the access
denied message is reported; other Errors report the generic access
message; non-Error values the unknown message.  Without getUserMedia
support the unsupported message is set. -/
def getInitialPermissionAndDevices : ProbeOutcome → InitState
  | .unsupported => { initState0 with error := some unsupportedMsg }
  | .failed none => { initState0 with error := some unknownErrorMsg }
  | .failed (some n) =>
      if n == "NotAllowedError" || n == "PermissionDeniedError" then
        { initState0 with error := some accessDeniedMsg }
      else
        { initState0 with error := some genericAccessMsg }
  | .granted allDevices =>
      match allDevices.filter isVideoInput with
      | [] => { devices := [], selectedDeviceId := "", error := some noDeviceFoundMsg }
      | d :: rest => { devices := d :: rest, selectedDeviceId := d.deviceId, error := none }

/-! ### Capture-session lifecycle (App.tsx lines 185-221) -/

/-- An in-flight getUserMedia acquisition: the target captured by the
`getStream` closure, with a request identifier. -/
structure PendingReq where
  reqId : Nat
  deviceId : String
  resolution : Resolution
deriving DecidableEq

/-- A delivered MediaStream: its identity plus the target it was
acquired for. -/
structure StreamHandle where
  id : Nat
  deviceId : String
  resolution : Resolution
deriving DecidableEq

/-- Session state: the React state/refs that the stream effect touches.
`streamRef`/`videoSrc` hold stream identities; `live` lists the streams
whose tracks have not been stopped (unreleased hardware streams);
`pending` lists in-flight acquisitions; `mounted` models whether
`videoRef.current` is non-null. -/
structure SessionState where
  selectedDeviceId : String
  selectedResolution : Resolution
  error : Option String
  hasStream : Bool
  streamRef : Option Nat
  videoSrc : Option Nat
  mounted : Bool
  pending : List PendingReq
  live : List StreamHandle
  nextId : Nat
deriving DecidableEq

/-- `stream.getTracks().forEach(track => track.stop())` on stream `t`:
its tracks become stopped, removing it from the unreleased set. -/
def stopTracks (s : SessionState) (t : Nat) : SessionState :=
  { s with live := s.live.filter (fun h => h.id != t) }

/-- `if (streamRef.current) { streamRef.current.getTracks().forEach(stop) }`
(App.tsx lines 186-188 and 216-220).  Note the ref itself is never
nulled out by the code. -/
def stopHeld (s : SessionState) : SessionState :=
  match s.streamRef with
  | none => s
  | some t => stopTracks s t

/-- The body of the stream effect (App.tsx lines 185-214): stop the
currently held stream, then, if a device is selected, start an
asynchronous acquisition for the current target (the `getStream` call);
the result arrives later via `resolveOk`/`resolveErr`. -/
def streamEffectBody (s : SessionState) : SessionState :=
  let s := stopHeld s
  if s.selectedDeviceId != "" then
    { s with
      pending := s.pending ++ [⟨s.nextId, s.selectedDeviceId, s.selectedResolution⟩]
      nextId := s.nextId + 1 }
  else s

/-- A target change (`setSelectedDeviceId` / `setSelectedResolution`
followed by React re-running the effect):  React first runs the
previous effect cleanup (App.tsx lines 216-220), which stops the held
stream, then the new effect body, which stops it again and issues the
new acquisition. -/
def setTarget (s : SessionState) (d : String) (r : Resolution) : SessionState :=
  streamEffectBody (stopHeld { s with selectedDeviceId := d, selectedResolution := r })

/-- Successful resolution of pending acquisition `req` (the `try`
branch of `getStream`, App.tsx lines 200-205): a new stream for the
request target is delivered live, `streamRef.current = stream` is
assigned unconditionally, and if the video element exists the stream is
bound to it and `setHasStream(true)` runs.  There is no staleness check
of any kind before committing. -/
def resolveOk (s : SessionState) (req : PendingReq) : SessionState :=
  if req ∈ s.pending then
    let t : Nat := s.nextId
    let s' : SessionState :=
      { s with
        pending := s.pending.erase req
        live := s.live ++ [⟨t, req.deviceId, req.resolution⟩]
        nextId := s.nextId + 1
        streamRef := some t }
    if s'.mounted then { s' with videoSrc := some t, hasStream := true } else s'
  else s

/-- Failed resolution of pending acquisition `req` (the `catch` branch
of `getStream`, App.tsx lines 206-210): the generic stream-start error
is set and `setHasStream(false)` runs; nothing else changes and no new
acquisition is issued. -/
def resolveErr (s : SessionState) (req : PendingReq) : SessionState :=
  if req ∈ s.pending then
    { s with
      pending := s.pending.erase req
      error := some streamStartFailedMsg
      hasStream := false }
  else s

/-- Component teardown: React runs the last effect cleanup (App.tsx
lines 216-220), stopping the held stream; the video element goes away. -/
def unmountSession (s : SessionState) : SessionState :=
  { stopHeld s with mounted := false, videoSrc := none }

/-- A freshly mounted component before any device is selected
(App.tsx lines 136-144; the resolution default is RESOLUTIONS[1]). -/
def sessionInit : SessionState :=
  { selectedDeviceId := ""
    selectedResolution := res720
    error := none
    hasStream := false
    streamRef := none
    videoSrc := none
    mounted := true
    pending := []
    live := []
    nextId := 0 }

/-! ### Fullscreen controller (App.tsx lines 223-233 and 244-256) -/

/-- The platform request a `toggleFullscreen` invocation issues. -/
inductive FsAction where
  | nothing
  | requestFullscreen (elem : Nat)
  | exitFullscreen
deriving DecidableEq

/-- Fullscreen-related state: the managed container element
(`playerContainerRef.current`), the platform truth
(`document.fullscreenElement`), and the mirrored React boolean
(`isFullscreen`). -/
structure FsState where
  container : Option Nat
  fullscreenElement : Option Nat
  isFullscreen : Bool
deriving DecidableEq

/-- `toggleFullscreen` (App.tsx lines 244-256): early return when the
container ref is null; request fullscreen on the container when
`!document.fullscreenElement`; otherwise exit fullscreen.  The check is
on the existence of any fullscreen element, not on its identity. -/
def toggleFullscreen (s : FsState) : FsAction :=
  match s.container with
  | none => .nothing
  | some c => if s.fullscreenElement.isNone then .requestFullscreen c else .exitFullscreen

/-- Platform effect of a granted fullscreen action. -/
def applyFsAction (s : FsState) : FsAction → FsState
  | .nothing => s
  | .requestFullscreen c => { s with fullscreenElement := some c }
  | .exitFullscreen => { s with fullscreenElement := none }

/-- A `toggleFullscreen` invocation whose platform request is granted
(the fullscreenchange notification is delivered separately by
`handleFullscreenChange`). -/
def toggleGranted (s : FsState) : FsState :=
  applyFsAction s (toggleFullscreen s)

/-- A `toggleFullscreen` invocation whose platform request is rejected:
the rejection is only logged (App.tsx lines 248-250); no state changes. -/
def toggleRejected (s : FsState) : FsState := s

/-- `handleFullscreenChange` (App.tsx lines 224-226), the fullscreenchange
listener: `setIsFullscreen(!!document.fullscreenElement)`. -/
def handleFullscreenChange (s : FsState) : FsState :=
  { s with isFullscreen := s.fullscreenElement.isSome }

/-! ### Theorems -/

/-- The interleaving `setTarget(camA, 720p)`, `setTarget(camB, 1080p)`,
then the second acquisition resolving before the first: stream 2 is the
(camB, 1080p) stream, stream 3 the (camA, 720p) stream and it resolves
last. -/
def staleLastTrace : SessionState :=
  resolveOk
    (resolveOk (setTarget (setTarget sessionInit "camA" res720) "camB" res1080)
      ⟨1, "camB", res1080⟩)
    ⟨0, "camA", res720⟩

/-- C1: the claim fails on the code.  With `setTarget(camA, 720p)`
immediately followed by `setTarget(camB, 1080p)` before the first
acquisition resolves, and the stale acquisition resolving last, the
code commits the stale stream: the final state has selection
(camB, 1080p) but renders stream 3, which was delivered for the stale
target (camA, 720p), and its tracks are live, not stopped; the newer
target's stream 2 is also left unreleased.  `getStream` has no
staleness check before `streamRef.current = stream` and
`videoRef.current.srcObject = stream` (App.tsx lines 200-205). -/
theorem c1_stale_stream_committed :
    staleLastTrace.selectedDeviceId = "camB" ∧
    staleLastTrace.selectedResolution = res1080 ∧
    staleLastTrace.videoSrc = some 3 ∧
    staleLastTrace.streamRef = some 3 ∧
    staleLastTrace.hasStream = true ∧
    staleLastTrace.live = [⟨2, "camB", res1080⟩, ⟨3, "camA", res720⟩] := by
  decide

/-- The same double `setTarget` interleaving with the acquisitions
resolving in request order: stream 2 is the (camA, 720p) stream,
stream 3 the (camB, 1080p) stream. -/
def staleFirstTrace : SessionState :=
  resolveOk
    (resolveOk (setTarget (setTarget sessionInit "camA" res720) "camB" res1080)
      ⟨0, "camA", res720⟩)
    ⟨1, "camB", res1080⟩

/-- C2: the claim fails on the code.  After `setTarget(camA, 720p)`,
`setTarget(camB, 1080p)` and both acquisitions resolving, two hardware
streams are held unreleased at once: the commit of stream 3 replaced
the held handle (stream 2) without stopping its tracks — the stops in
the effect body and cleanup (App.tsx lines 186-188, 216-220) ran while
the ref was still empty. -/
theorem c2_two_streams_unreleased :
    staleFirstTrace.live = [⟨2, "camA", res720⟩, ⟨3, "camB", res1080⟩] ∧
    staleFirstTrace.live.length = 2 ∧
    staleFirstTrace.streamRef = some 3 := by
  decide

/-- C3: after a successful probe, a non-empty filtered video-device
list selects the first entry as default with no error; an empty list
reports the no-device-found condition and selects nothing
(App.tsx lines 152-163). -/
theorem c3_device_catalog_default (ds : List Device) :
    (∀ d rest, ds.filter isVideoInput = d :: rest →
      (getInitialPermissionAndDevices (.granted ds)).selectedDeviceId = d.deviceId ∧
      (getInitialPermissionAndDevices (.granted ds)).devices = d :: rest ∧
      (getInitialPermissionAndDevices (.granted ds)).error = none) ∧
    (ds.filter isVideoInput = [] →
      (getInitialPermissionAndDevices (.granted ds)).error = some noDeviceFoundMsg ∧
      (getInitialPermissionAndDevices (.granted ds)).selectedDeviceId = "") := by
  constructor
  · intro d rest h
    simp [getInitialPermissionAndDevices, h]
  · intro h
    simp [getInitialPermissionAndDevices, h]

/-- Witness for C3: one camera and no camera, concretely. -/
theorem c3_device_catalog_default_witness :
    (getInitialPermissionAndDevices
        (.granted [⟨"id0", "Front Camera", "videoinput"⟩])).selectedDeviceId = "id0" ∧
    (getInitialPermissionAndDevices
        (.granted [⟨"mic", "Microphone", "audioinput"⟩])).error = some noDeviceFoundMsg ∧
    (getInitialPermissionAndDevices
        (.granted [⟨"mic", "Microphone", "audioinput"⟩])).selectedDeviceId = "" := by
  have h1 := (c3_device_catalog_default [⟨"id0", "Front Camera", "videoinput"⟩]).1
    ⟨"id0", "Front Camera", "videoinput"⟩ [] (by decide)
  have h2 := (c3_device_catalog_default [⟨"mic", "Microphone", "audioinput"⟩]).2 (by decide)
  exact ⟨h1.1, h2.1, h2.2⟩

/-- C4: a probe refused with NotAllowedError or PermissionDeniedError
reports the access-denied message, which is not the generic
stream-start-failed message (App.tsx lines 164-170). -/
theorem c4_permission_denied_condition (n : String)
    (h : n = "NotAllowedError" ∨ n = "PermissionDeniedError") :
    (getInitialPermissionAndDevices (.failed (some n))).error = some accessDeniedMsg ∧
    (getInitialPermissionAndDevices (.failed (some n))).error ≠ some streamStartFailedMsg := by
  rcases h with h | h <;> subst h <;> exact ⟨by decide, by decide⟩

/-- Witness for C4: the standard NotAllowedError refusal. -/
theorem c4_permission_denied_condition_witness :
    (getInitialPermissionAndDevices (.failed (some "NotAllowedError"))).error
        = some accessDeniedMsg ∧
    (getInitialPermissionAndDevices (.failed (some "NotAllowedError"))).error
        ≠ some streamStartFailedMsg :=
  c4_permission_denied_condition "NotAllowedError" (Or.inl rfl)

/-- C5: a failed acquisition sets the generic stream-start error and
clears `hasStream`; the pending set only shrinks (no retry is issued),
no fresh request id is consumed, and the selected device and resolution
are untouched (no fallback) (App.tsx lines 206-210). -/
theorem c5_acquisition_failure (s : SessionState) (req : PendingReq) (h : req ∈ s.pending) :
    (resolveErr s req).error = some streamStartFailedMsg ∧
    (resolveErr s req).hasStream = false ∧
    (resolveErr s req).pending = s.pending.erase req ∧
    (resolveErr s req).selectedDeviceId = s.selectedDeviceId ∧
    (resolveErr s req).selectedResolution = s.selectedResolution ∧
    (resolveErr s req).nextId = s.nextId := by
  simp [resolveErr, h]

/-- Witness for C5: a single failing acquisition from the initial state. -/
theorem c5_acquisition_failure_witness :
    (resolveErr { sessionInit with pending := [⟨0, "camA", res720⟩] }
        ⟨0, "camA", res720⟩).error = some streamStartFailedMsg ∧
    (resolveErr { sessionInit with pending := [⟨0, "camA", res720⟩] }
        ⟨0, "camA", res720⟩).hasStream = false ∧
    (resolveErr { sessionInit with pending := [⟨0, "camA", res720⟩] }
        ⟨0, "camA", res720⟩).pending
      = ([⟨0, "camA", res720⟩] : List PendingReq).erase ⟨0, "camA", res720⟩ ∧
    (resolveErr { sessionInit with pending := [⟨0, "camA", res720⟩] }
        ⟨0, "camA", res720⟩).selectedDeviceId
      = ({ sessionInit with pending := [⟨0, "camA", res720⟩] } : SessionState).selectedDeviceId ∧
    (resolveErr { sessionInit with pending := [⟨0, "camA", res720⟩] }
        ⟨0, "camA", res720⟩).selectedResolution
      = ({ sessionInit with pending := [⟨0, "camA", res720⟩] } : SessionState).selectedResolution ∧
    (resolveErr { sessionInit with pending := [⟨0, "camA", res720⟩] }
        ⟨0, "camA", res720⟩).nextId
      = ({ sessionInit with pending := [⟨0, "camA", res720⟩] } : SessionState).nextId :=
  c5_acquisition_failure { sessionInit with pending := [⟨0, "camA", res720⟩] }
    ⟨0, "camA", res720⟩ (by decide)

/-- C6: unmounting while the held stream is the one unreleased stream
stops all of its tracks: zero unreleased tracks remain
(App.tsx lines 216-220). -/
theorem c6_unmount_stops_tracks (s : SessionState) (t : Nat) (h : StreamHandle)
    (href : s.streamRef = some t) (hid : h.id = t) (hlive : s.live = [h]) :
    (unmountSession s).live = [] ∧ (unmountSession s).mounted = false := by
  subst hid
  constructor
  · simp [unmountSession, stopHeld, href, stopTracks, hlive]
  · simp [unmountSession, stopHeld, href, stopTracks]

/-- Witness for C6: unmounting with stream 5 active. -/
theorem c6_unmount_stops_tracks_witness :
    (unmountSession { sessionInit with
        streamRef := some 5, live := [⟨5, "camA", res720⟩], hasStream := true }).live = [] ∧
    (unmountSession { sessionInit with
        streamRef := some 5, live := [⟨5, "camA", res720⟩], hasStream := true }).mounted = false :=
  c6_unmount_stops_tracks _ 5 ⟨5, "camA", res720⟩ rfl rfl rfl

/-- C7 counterexample: with the managed container being element 0 and
some other element 1 currently fullscreen, the platform's fullscreen
target is not the managed container, yet `toggleFullscreen` requests
exit instead of requesting fullscreen on the container: the code tests
`!document.fullscreenElement` (existence), not identity
(App.tsx line 247). -/
theorem c7_toggle_identity_counterexample :
    toggleFullscreen ⟨some 0, some 1, true⟩ = .exitFullscreen ∧
    toggleFullscreen ⟨some 0, some 1, true⟩ ≠ .requestFullscreen 0 := by
  decide

/-- C7 amended: when the container ref is set, `toggleFullscreen`
requests fullscreen on the container exactly when the platform reports
no fullscreen element at all, and requests exit whenever any element is
fullscreen (App.tsx lines 244-256). -/
theorem c7_toggle_fullscreen_amended (s : FsState) (c : Nat) (hc : s.container = some c) :
    (s.fullscreenElement = none → toggleFullscreen s = .requestFullscreen c) ∧
    (s.fullscreenElement ≠ none → toggleFullscreen s = .exitFullscreen) := by
  constructor
  · intro h
    simp [toggleFullscreen, hc, h]
  · intro h
    simp [toggleFullscreen, hc, Option.isNone_iff_eq_none, h]

/-- Witness for C7 amended: entering from no-fullscreen, exiting when
fullscreen. -/
theorem c7_toggle_fullscreen_amended_witness :
    toggleFullscreen ⟨some 4, none, false⟩ = .requestFullscreen 4 ∧
    toggleFullscreen ⟨some 4, some 4, true⟩ = .exitFullscreen :=
  ⟨(c7_toggle_fullscreen_amended ⟨some 4, none, false⟩ 4 rfl).1 rfl,
   (c7_toggle_fullscreen_amended ⟨some 4, some 4, true⟩ 4 rfl).2 (by decide)⟩

/-- C8: starting from any consistent mirror value, two granted toggles,
each followed by the delivery of the fullscreenchange notification,
return the mirrored boolean to its original value
(App.tsx lines 223-233 and 244-256). -/
theorem c8_double_toggle_restores_mirror (s : FsState) (c : Nat)
    (hc : s.container = some c)
    (hsync : s.isFullscreen = s.fullscreenElement.isSome) :
    (handleFullscreenChange (toggleGranted
      (handleFullscreenChange (toggleGranted s)))).isFullscreen = s.isFullscreen := by
  rcases s with ⟨cont, fse, b⟩
  simp only at hc
  subst hc
  cases fse <;>
    simp_all [toggleGranted, toggleFullscreen, applyFsAction, handleFullscreenChange]

/-- Witness for C8: from non-fullscreen with container element 4. -/
theorem c8_double_toggle_restores_mirror_witness :
    (handleFullscreenChange (toggleGranted
      (handleFullscreenChange (toggleGranted ⟨some 4, none, false⟩)))).isFullscreen = false :=
  c8_double_toggle_restores_mirror ⟨some 4, none, false⟩ 4 rfl rfl

/-- C9: a toggle invocation — whether its platform request is granted
or rejected — never writes the mirrored boolean; only the
fullscreenchange listener does, setting it to whether a platform
fullscreen element exists (App.tsx lines 223-233, 244-256). -/
theorem c9_mirror_updated_only_by_listener (s : FsState) :
    (toggleGranted s).isFullscreen = s.isFullscreen ∧
    (toggleRejected s).isFullscreen = s.isFullscreen ∧
    (handleFullscreenChange s).isFullscreen = s.fullscreenElement.isSome := by
  refine ⟨?_, rfl, rfl⟩
  rcases s with ⟨cont, fse, b⟩
  cases cont <;> cases fse <;> rfl

/-- C10: the resolution-change handler parses the value as an integer
and indexes RESOLUTIONS without a bounds check: a parsed index inside
0..3 selects the corresponding triple, any parsed index outside 0..3
yields the absent value, and an unparsable value (NaN) also yields the
absent value — never an error (App.tsx lines 239-242). -/
theorem c10_resolution_change_no_bounds_check (value : String) :
    (∀ i : Int, parseIntJS value = some i → 0 ≤ i → i.toNat < RESOLUTIONS.length →
      handleResolutionChange value = RESOLUTIONS.get? i.toNat ∧
      (handleResolutionChange value).isSome = true) ∧
    (∀ i : Int, parseIntJS value = some i → (i < 0 ∨ RESOLUTIONS.length ≤ i.toNat) →
      handleResolutionChange value = none) ∧
    (parseIntJS value = none → handleResolutionChange value = none) := by
  have hlen : RESOLUTIONS.length = 4 := rfl
  refine ⟨?_, ?_, ?_⟩
  · intro i hp h0 hlt
    have hnot : ¬ i < 0 := by omega
    have heq : handleResolutionChange value = RESOLUTIONS.get? i.toNat := by
      simp [handleResolutionChange, hp, hnot]
    refine ⟨heq, ?_⟩
    rw [heq]
    have hne : RESOLUTIONS.get? i.toNat ≠ none := by
      intro hcon
      rw [List.get?_eq_none] at hcon
      omega
    exact Option.isSome_iff_ne_none.mpr hne
  · intro i hp hout
    rcases hout with hneg | hge
    · simp [handleResolutionChange, hp, hneg]
    · have hnot : ¬ i < 0 := by
        rw [hlen] at hge
        omega
      simp [handleResolutionChange, hp, hnot]
      omega
  · intro h
    simp [handleResolutionChange, h]

/-- Witness for C10: in-range index 2, out-of-range index 9, and an
unparsable value. -/
theorem c10_resolution_change_no_bounds_check_witness :
    (handleResolutionChange "2" = RESOLUTIONS.get? (2 : Int).toNat ∧
      (handleResolutionChange "2").isSome = true) ∧
    handleResolutionChange "9" = none ∧
    handleResolutionChange "abc" = none :=
  ⟨(c10_resolution_change_no_bounds_check "2").1 2 (by decide) (by decide) (by decide),
   (c10_resolution_change_no_bounds_check "9").2.1 9 (by decide) (Or.inr (by decide)),
   (c10_resolution_change_no_bounds_check "abc").2.2 (by decide)⟩
